import Mathlib

/-!
Verification of the benchmark-statistics pipeline (stats.py, visualizer.py).

The embedding models the table as a list of rows, the named-series
collections as insertion-ordered association lists (Python dict literals),
and the console output as a list of structured events.  The statistical
library calls are embedded as follows:
* scipy.stats.friedmanchisquare is translated in full over exact rationals
  (argument checks, average ranking, tie correction, statistic); the
  chi-square survival function chi2.sf is kept as an abstract parameter.
  When the exact tie correction c is 0 (all trial rows fully tied) the float
  statistic is an exact-zero numerator's rounding residue divided by 0.0 —
  NaN or plus or minus infinity depending on the residue at that (k, n) —
  so the p-value of that degenerate branch is a second abstract parameter
  of k and n, with none standing for NaN.
* scipy.stats.shapiro and scikit_posthocs.posthoc_nemenyi_friedman are
  numerical routines whose values no claim depends on; they are abstract
  parameters of the pipeline.
-/

/-- One row of the loaded CSV table: columns script, time_taken, memory_usage. -/
structure Row where
  script : String
  time_taken : ℚ
  memory_usage : ℚ
deriving DecidableEq, Repr

/-- df[df['script'] == s]['time_taken'].tolist() -/
def timesOf (df : List Row) (s : String) : List ℚ :=
  (df.filter (fun r => r.script == s)).map Row.time_taken

/-- df[df['script'] == s]['memory_usage'].tolist() -/
def memoryOf (df : List Row) (s : String) : List ℚ :=
  (df.filter (fun r => r.script == s)).map Row.memory_usage

/-- stats.py lines 40-45: the initial time collection. -/
def script_times (df : List Row) : List (String × List ℚ) :=
  [("FP_JS", timesOf df "FP_JS.js"),
   ("FP_TS", timesOf df "FP_TS.js"),
   ("OOP_JS", timesOf df "OOP_JS.js"),
   ("OOP_TS", timesOf df "OOP_TS.js")]

/-- stats.py lines 47-52: the initial memory collection. -/
def script_memory_usages (df : List Row) : List (String × List ℚ) :=
  [("FP_JS", memoryOf df "FP_JS.js"),
   ("FP_TS", memoryOf df "FP_TS.js"),
   ("OOP_JS", memoryOf df "OOP_JS.js"),
   ("OOP_TS", memoryOf df "OOP_TS.js")]

/-- stats.py lines 69-73: the optimized time collection. -/
def script_optimized_times (df : List Row) : List (String × List ℚ) :=
  [("FP_JS", timesOf df "FP_JS.js"),
   ("OOP_JS", timesOf df "OOP_JS.js"),
   ("OOP_STRING_JS", timesOf df "OOP_STRING_JS.js")]

/-- stats.py lines 75-79: the optimized memory collection. -/
def script_optimized_memory_usages (df : List Row) : List (String × List ℚ) :=
  [("FP_JS", memoryOf df "FP_JS.js"),
   ("OOP_JS", memoryOf df "OOP_JS.js"),
   ("OOP_STRING_JS", memoryOf df "OOP_STRING_JS.js")]

/-- The five script identifiers that the collections filter on. -/
def knownScripts : List String :=
  ["FP_JS.js", "FP_TS.js", "OOP_JS.js", "OOP_TS.js", "OOP_STRING_JS.js"]

/-- Claim C10: the optimized collections are built from the same loaded table
with the same filters as the initial ones, so their FP_JS and OOP_JS series
are element-wise equal to the corresponding initial series. -/
theorem optimized_series_match_initial (df : List Row) :
    (script_optimized_times df).lookup "FP_JS" = (script_times df).lookup "FP_JS" ∧
    (script_optimized_times df).lookup "OOP_JS" = (script_times df).lookup "OOP_JS" ∧
    (script_optimized_memory_usages df).lookup "FP_JS"
      = (script_memory_usages df).lookup "FP_JS" ∧
    (script_optimized_memory_usages df).lookup "OOP_JS"
      = (script_memory_usages df).lookup "OOP_JS" := by
  refine ⟨rfl, ?_, rfl, ?_⟩ <;>
    simp [script_optimized_times, script_times,
      script_optimized_memory_usages, script_memory_usages, List.lookup]

/-- Claim C6: a row whose script identifier matches none of the five literal
identifiers contributes to no series of any named-series collection: dropping
it from the table leaves all four collections unchanged. -/
theorem unknown_script_contributes_nothing (pre post : List Row) (r : Row)
    (h : r.script ∉ knownScripts) :
    script_times (pre ++ r :: post) = script_times (pre ++ post) ∧
    script_memory_usages (pre ++ r :: post) = script_memory_usages (pre ++ post) ∧
    script_optimized_times (pre ++ r :: post) = script_optimized_times (pre ++ post) ∧
    script_optimized_memory_usages (pre ++ r :: post)
      = script_optimized_memory_usages (pre ++ post) := by
  simp only [knownScripts, List.mem_cons, List.mem_singleton, not_or] at h
  obtain ⟨h1, h2, h3, h4, h5, -⟩ := h
  refine ⟨?_, ?_, ?_, ?_⟩ <;>
    simp [script_times, script_memory_usages, script_optimized_times,
      script_optimized_memory_usages, timesOf, memoryOf, List.filter_append,
      List.filter_cons, h1, h2, h3, h4, h5]

/-- Witness for C6 at a concrete table and row. -/
theorem unknown_script_contributes_nothing_witness :
    (Row.mk "OTHER.js" 1 2).script ∉ knownScripts ∧
    script_times ([Row.mk "FP_JS.js" 3 4] ++ Row.mk "OTHER.js" 1 2 :: [Row.mk "OOP_JS.js" 5 6])
      = script_times ([Row.mk "FP_JS.js" 3 4] ++ [Row.mk "OOP_JS.js" 5 6]) :=
  ⟨by decide,
   (unknown_script_contributes_nothing [Row.mk "FP_JS.js" 3 4] [Row.mk "OOP_JS.js" 5 6]
     (Row.mk "OTHER.js" 1 2) (by decide)).1⟩

/-- One unit of console output, carrying the values that the corresponding
print statement formats. -/
inductive Event where
  | text (s : String)
  | shapiroRow (label : String) (pvalue : ℚ) (flag : String)
  | friedmanP (pvalue : Option ℚ) (flag : String)
  | groupIndex (index : ℕ) (label : String)
  | posthocMatrix (m : List (List ℚ))
deriving DecidableEq, Repr

/-- stats.py lines 8-14.  The Shapiro-Wilk computation itself is the abstract
parameter shapiro returning (statistic, pvalue); the loop prints one row per
entry with the flag Da when pvalue > 0.05 and Ne otherwise. -/
def calculate_shapiro (shapiro : List ℚ → ℚ × ℚ)
    (scripts : List (String × List ℚ)) : List Event :=
  Event.text "Skripta / Shapiro-Wilk p vrijednost / Normalna distribucija" ::
  Event.text "------- / ------------------------- / ---------------------" ::
  scripts.map (fun sv =>
    let pvalue := (shapiro sv.2).2
    Event.shapiroRow sv.1 pvalue (if pvalue > 1/20 then "Da" else "Ne"))

/-- scipy.stats.rankdata with the default average method: the rank of x is
(number of entries below x) + (number of entries equal to x + 1) / 2. -/
def rankdata (d : List ℚ) : List ℚ :=
  d.map (fun x => (d.countP (fun y => decide (y < x)) : ℚ)
    + ((d.countP (fun y => decide (y = x)) : ℚ) + 1) / 2)

/-- The tie term of one ranked row: scipy sums t * (t * t - 1) over every
group of t equal values; summing (count x) ^ 2 - 1 over all elements x of the
row is the same sum, since each group of size t contributes t * (t ^ 2 - 1). -/
def tiesOf (d : List ℚ) : ℚ :=
  (d.map (fun x => (d.count x : ℚ) ^ 2 - 1)).sum

/-- np.vstack(samples).T by indexing: row i is the i-th entry of every sample.
It is only applied after the equal-length check, where it is the matrix
transpose. -/
def npTranspose (samples : List (List ℚ)) : List (List ℚ) :=
  (List.range (samples.headD []).length).map (fun i => samples.map (fun s => s.getD i 0))

/-- scipy.stats.friedmanchisquare over exact rationals, returning
(statistic, pvalue).  The chi-square survival function is the abstract
parameter sf (degrees of freedom, then statistic).  An empty sample list
makes the tie-correction line divide the integer 0 by the integer 0, a
ZeroDivisionError.

The exact tie-correction factor c is 0 precisely when every trial row is
fully tied; the float c is then exactly 0.0 as well, and the float statistic
is the exact-zero numerator's rounding residue divided by 0.0: NaN when the
residue is exactly 0.0, otherwise plus or minus infinity, which chi2.sf maps
to 0.0 or 1.0.  In that fully-tied configuration every rank is (k + 1) / 2,
so the residue — hence the float p-value — depends only on k and n.  That
p-value is therefore the abstract parameter degen applied to k and n, with
none standing for NaN; the exact statistic has no finite value and is
returned as none. -/
def friedmanchisquare (sf : ℕ → ℚ → ℚ) (degen : ℕ → ℕ → Option ℚ)
    (samples : List (List ℚ)) : Except String (Option ℚ × Option ℚ) :=
  let k := samples.length
  if k < 3 then
    .error "At least 3 sets of samples must be given for Friedman test."
  else
    let n := (samples.headD []).length
    if (samples.drop 1).any (fun s => s.length != n) then
      .error "Unequal N in friedmanchisquare.  Aborting."
    else if n = 0 then
      .error "ZeroDivisionError: division by zero"
    else
      let data := (npTranspose samples).map rankdata
      let ties := (data.map tiesOf).sum
      let c : ℚ := 1 - ties / ((k : ℚ) * ((k : ℚ) * (k : ℚ) - 1) * (n : ℚ))
      let ssbn : ℚ := (((npTranspose data).map List.sum).map (fun x => x ^ 2)).sum
      if c = 0 then
        .ok (none, degen k n)
      else
        let statistic : ℚ := (12 / ((k : ℚ) * (n : ℚ) * ((k : ℚ) + 1)) * ssbn
          - 3 * (n : ℚ) * ((k : ℚ) + 1)) / c
        .ok (some statistic, some (sf (k - 1) statistic))

/-- The Python comparison pvalue < x: a NaN p-value (none) compares false. -/
def pvalueLt (p : Option ℚ) (x : ℚ) : Bool :=
  match p with
  | none => false
  | some q => decide (q < x)

/-- stats.py lines 17-30.  Runs the Friedman test over the collection values;
a library error aborts with no output.  On success prints the p-value line
with flag Da when pvalue < 0.05 and Ne otherwise, then the group-index
legend and the Nemenyi post-hoc matrix (abstract parameter nemenyi, applied
to the transposed value matrix). -/
def calculate_friedman (sf : ℕ → ℚ → ℚ) (degen : ℕ → ℕ → Option ℚ)
    (nemenyi : List (List ℚ) → List (List ℚ))
    (scripts : List (String × List ℚ)) : Except String (List Event) :=
  let script_values := scripts.map Prod.snd
  match friedmanchisquare sf degen script_values with
  | .error e => .error e
  | .ok sp =>
    .ok ([Event.text "Friedman p vrijednost / Postoji razlika u barem jednoj grupi",
          Event.text "--------------------- / ------------------------------------",
          Event.friedmanP sp.2 (if pvalueLt sp.2 (1/20) then "Da" else "Ne"),
          Event.text "",
          Event.text "Friedman post hoc"]
      ++ (scripts.map Prod.fst).enum.map (fun p => Event.groupIndex p.1 p.2)
      ++ [Event.posthocMatrix (nemenyi (npTranspose script_values))])

/-- A concrete stand-in for the chi-square survival function, used only to
instantiate theorems at concrete inputs. -/
def sfStub : ℕ → ℚ → ℚ := fun _ _ => 1/2

/-- A concrete stand-in for the degenerate fully-tied float outcome, used
only to instantiate theorems at concrete inputs.  none models NaN, which is
the actual outcome at the sizes used below (k = 3, n = 3: the float
numerator is exactly 0.0, so the statistic is 0.0 / 0.0 = NaN and
chi2.sf propagates it). -/
def degenStub : ℕ → ℕ → Option ℚ := fun _ _ => none

/-- A concrete stand-in for the Nemenyi post-hoc computation, used only to
instantiate theorems at concrete inputs. -/
def nemStub : List (List ℚ) → List (List ℚ) := fun m => m

/-- A concrete stand-in for the Shapiro-Wilk computation, used only to
instantiate theorems at concrete inputs. -/
def shapiroStub : List ℚ → ℚ × ℚ := fun _ => (1, 1/20)

/-- The Group Comparator input used to instantiate theorems at a concrete
successful Friedman run. -/
def demoScripts : List (String × List ℚ) := [("A", [1]), ("B", [2]), ("C", [3])]

/-- The output of calculate_friedman on demoScripts (statistic 2, p-value
sfStub 2 2 = 1/2, flag Ne). -/
def demoOut : List Event :=
  [Event.text "Friedman p vrijednost / Postoji razlika u barem jednoj grupi",
   Event.text "--------------------- / ------------------------------------",
   Event.friedmanP (some (1/2)) "Ne",
   Event.text "",
   Event.text "Friedman post hoc",
   Event.groupIndex 0 "A", Event.groupIndex 1 "B", Event.groupIndex 2 "C",
   Event.posthocMatrix [[1, 2, 3]]]

theorem demo_friedman_ok :
    calculate_friedman sfStub degenStub nemStub demoScripts = .ok demoOut := by
  have h1 : npTranspose [[(1 : ℚ)], [2], [3]] = [[1, 2, 3]] := by
    norm_num [npTranspose, List.range_succ]
  have h2 : rankdata [(1 : ℚ), 2, 3] = [1, 2, 3] := by
    norm_num [rankdata, List.countP_cons, List.countP_nil]
  have h3 : npTranspose [[(1 : ℚ), 2, 3]] = [[1], [2], [3]] := by
    norm_num [npTranspose, List.range_succ]
  have h4 : tiesOf [(1 : ℚ), 2, 3] = 0 := by
    norm_num [tiesOf, List.count_cons, List.count_nil]
  have hfc : friedmanchisquare sfStub degenStub [[(1 : ℚ)], [2], [3]]
      = .ok (some 2, some (1/2)) := by
    simp only [friedmanchisquare]
    norm_num [h1, h2, h3, h4, sfStub]
  have hmap : demoScripts.map Prod.snd = [[(1 : ℚ)], [2], [3]] := by
    simp [demoScripts]
  simp only [calculate_friedman, hmap, hfc]
  norm_num [demoOut, pvalueLt, nemStub, h1, List.enum, List.enumFrom, demoScripts]

/-- Claim C2: for every series passed to the Normality Checker, the printed
row shows Da exactly when its Shapiro-Wilk p-value is strictly greater than
0.05, and Ne otherwise; a p-value of exactly 0.05 is classified Ne. -/
theorem shapiro_row_classification (shapiro : List ℚ → ℚ × ℚ)
    (scripts : List (String × List ℚ)) (label : String) (values : List ℚ)
    (h : (label, values) ∈ scripts) :
    ∃ flag, Event.shapiroRow label (shapiro values).2 flag
        ∈ calculate_shapiro shapiro scripts ∧
      (flag = "Da" ↔ (shapiro values).2 > 1/20) ∧
      (¬ (shapiro values).2 > 1/20 → flag = "Ne") ∧
      ((shapiro values).2 = 1/20 → flag = "Ne") := by
  refine ⟨if (shapiro values).2 > 1/20 then "Da" else "Ne", ?_, ?_, ?_, ?_⟩
  · simp only [calculate_shapiro, List.mem_cons]
    right; right
    exact List.mem_map.2 ⟨(label, values), h, rfl⟩
  · by_cases hp : (shapiro values).2 > 1/20
    · rw [if_pos hp]; simpa using hp
    · rw [if_neg hp]
      constructor
      · intro hh; exact absurd hh (by decide)
      · intro hh; exact absurd hh hp
  · intro hp; rw [if_neg hp]
  · intro hp; rw [if_neg (by rw [hp]; exact lt_irrefl _)]

/-- Witness for C2 at a concrete oracle and collection (p-value exactly
0.05, classified Ne). -/
theorem shapiro_row_classification_witness :
    (("A", ([1, 2, 3] : List ℚ)) ∈ [("A", ([1, 2, 3] : List ℚ))]) ∧
    ∃ flag, Event.shapiroRow "A" (shapiroStub [1, 2, 3]).2 flag
        ∈ calculate_shapiro shapiroStub [("A", [1, 2, 3])] ∧
      (flag = "Da" ↔ (shapiroStub [1, 2, 3]).2 > 1/20) ∧
      (¬ (shapiroStub [1, 2, 3]).2 > 1/20 → flag = "Ne") ∧
      ((shapiroStub [1, 2, 3]).2 = 1/20 → flag = "Ne") :=
  ⟨by simp,
   shapiro_row_classification shapiroStub [("A", [1, 2, 3])] "A" [1, 2, 3] (by simp)⟩

/-- Claim C3: the Friedman significance line prints Da exactly when the
Friedman p-value is strictly below 0.05 (a NaN p-value, modelled none, is
not below anything), and Ne otherwise; a p-value of exactly 0.05 is
classified Ne. -/
theorem friedman_line_classification (sf : ℕ → ℚ → ℚ) (degen : ℕ → ℕ → Option ℚ)
    (nemenyi : List (List ℚ) → List (List ℚ)) (scripts : List (String × List ℚ))
    (out : List Event) (h : calculate_friedman sf degen nemenyi scripts = .ok out) :
    ∃ p flag, Event.friedmanP p flag ∈ out ∧
      (flag = "Da" ↔ ∃ q, p = some q ∧ q < 1/20) ∧
      (p = some (1/20) → flag = "Ne") ∧
      (p = none → flag = "Ne") := by
  simp only [calculate_friedman] at h
  cases hfc : friedmanchisquare sf degen (scripts.map Prod.snd) with
  | error e => rw [hfc] at h; simp at h
  | ok sp =>
    rw [hfc] at h
    simp only [Except.ok.injEq] at h
    subst h
    refine ⟨sp.2, if pvalueLt sp.2 (1/20) then "Da" else "Ne", ?_, ?_, ?_, ?_⟩
    · simp [List.mem_append]
    · cases hp : sp.2 with
      | none => simp [pvalueLt]
      | some q =>
        by_cases hq : q < 1/20 <;> simp [pvalueLt, hq]
    · intro hp; simp [pvalueLt, hp]
    · intro hp; simp [pvalueLt, hp]

/-- Witness for C3 at a concrete successful Friedman run. -/
theorem friedman_line_classification_witness :
    calculate_friedman sfStub degenStub nemStub demoScripts = .ok demoOut ∧
    ∃ p flag, Event.friedmanP p flag ∈ demoOut ∧
      (flag = "Da" ↔ ∃ q, p = some q ∧ q < 1/20) ∧
      (p = some (1/20) → flag = "Ne") ∧
      (p = none → flag = "Ne") :=
  ⟨demo_friedman_ok,
   friedman_line_classification sfStub degenStub nemStub demoScripts demoOut
     demo_friedman_ok⟩

theorem friedmanchisquare_error_of_unequal (sf : ℕ → ℚ → ℚ)
    (degen : ℕ → ℕ → Option ℚ) (samples : List (List ℚ))
    (u v : List ℚ) (hu : u ∈ samples) (hv : v ∈ samples)
    (hne : u.length ≠ v.length) :
    ∃ e, friedmanchisquare sf degen samples = .error e := by
  by_cases hk : samples.length < 3
  · exact ⟨"At least 3 sets of samples must be given for Friedman test.",
      by simp [friedmanchisquare, hk]⟩
  · obtain ⟨s0, rest, rfl⟩ : ∃ s0 rest, samples = s0 :: rest := by
      cases samples with
      | nil => simp at hk
      | cons a l => exact ⟨a, l, rfl⟩
    simp only [List.length_cons] at hk
    have hex : ∃ x ∈ rest, ¬ x.length = s0.length := by
      by_cases hu0 : u.length = s0.length
      · have hv0 : v.length ≠ s0.length := fun hh => hne (hu0.trans hh.symm)
        have hvr : v ∈ rest := by
          rcases List.mem_cons.1 hv with h | h
          · exact absurd (congrArg List.length h) hv0
          · exact h
        exact ⟨v, hvr, hv0⟩
      · have hur : u ∈ rest := by
          rcases List.mem_cons.1 hu with h | h
          · exact absurd (congrArg List.length h) hu0
          · exact h
        exact ⟨u, hur, hu0⟩
    exact ⟨"Unequal N in friedmanchisquare.  Aborting.",
      by simp [friedmanchisquare, hk, hex]⟩

/-- Claim C4: when the series of a Group Comparator input do not all have
the same length, the run fails with a library error; nothing is truncated
or padded and no output is produced. -/
theorem comparator_unequal_lengths_error (sf : ℕ → ℚ → ℚ) (degen : ℕ → ℕ → Option ℚ)
    (nemenyi : List (List ℚ) → List (List ℚ)) (scripts : List (String × List ℚ))
    (a b : String × List ℚ) (ha : a ∈ scripts) (hb : b ∈ scripts)
    (hne : a.2.length ≠ b.2.length) :
    ∃ e, calculate_friedman sf degen nemenyi scripts = .error e := by
  obtain ⟨e, he⟩ := friedmanchisquare_error_of_unequal sf degen (scripts.map Prod.snd)
    a.2 b.2 (List.mem_map_of_mem Prod.snd ha) (List.mem_map_of_mem Prod.snd hb) hne
  exact ⟨e, by simp [calculate_friedman, he]⟩

/-- Witness for C4 at a concrete collection with series of lengths 1 and 2. -/
theorem comparator_unequal_lengths_error_witness :
    (("A", ([1] : List ℚ)) ∈ [("A", ([1] : List ℚ)), ("B", [1, 2]), ("C", [3])]) ∧
    (("B", ([1, 2] : List ℚ)) ∈ [("A", ([1] : List ℚ)), ("B", [1, 2]), ("C", [3])]) ∧
    ∃ e, calculate_friedman sfStub degenStub nemStub
      [("A", ([1] : List ℚ)), ("B", [1, 2]), ("C", [3])] = .error e :=
  ⟨by simp, by simp,
   comparator_unequal_lengths_error sfStub degenStub nemStub
     [("A", [1]), ("B", [1, 2]), ("C", [3])]
     ("A", [1]) ("B", [1, 2]) (by simp) (by simp) (by simp)⟩

/-- Claim C9: whenever the Group Comparator runs to completion, the Nemenyi
post-hoc section is part of the output, with the matrix computed on the
transposed value matrix — for every p-value outcome, not only significant
ones. -/
theorem posthoc_printed_unconditionally (sf : ℕ → ℚ → ℚ) (degen : ℕ → ℕ → Option ℚ)
    (nemenyi : List (List ℚ) → List (List ℚ)) (scripts : List (String × List ℚ))
    (out : List Event) (h : calculate_friedman sf degen nemenyi scripts = .ok out) :
    Event.text "Friedman post hoc" ∈ out ∧
    Event.posthocMatrix (nemenyi (npTranspose (scripts.map Prod.snd))) ∈ out := by
  simp only [calculate_friedman] at h
  cases hfc : friedmanchisquare sf degen (scripts.map Prod.snd) with
  | error e => rw [hfc] at h; simp at h
  | ok sp =>
    rw [hfc] at h
    simp only [Except.ok.injEq] at h
    subst h
    constructor
    · simp [List.mem_append]
    · simp [List.mem_append]

/-- Witness for C9 at a concrete run whose significance flag is Ne: the
post-hoc matrix is printed anyway. -/
theorem posthoc_printed_unconditionally_witness :
    calculate_friedman sfStub degenStub nemStub demoScripts = .ok demoOut ∧
    Event.text "Friedman post hoc" ∈ demoOut ∧
    Event.posthocMatrix (nemStub (npTranspose (demoScripts.map Prod.snd))) ∈ demoOut :=
  ⟨demo_friedman_ok,
   posthoc_printed_unconditionally sfStub degenStub nemStub demoScripts demoOut
     demo_friedman_ok⟩

theorem map_range_getD {β : Type} (v : List ℚ) (g : ℚ → β) :
    (List.range v.length).map (fun i => g (v.getD i 0)) = v.map g := by
  induction v with
  | nil => simp
  | cons a t ih =>
    have hcomp : ((fun i => g ((a :: t).getD i 0)) ∘ Nat.succ) = (fun i => g (t.getD i 0)) := by
      funext i; rfl
    calc (List.range (a :: t).length).map (fun i => g ((a :: t).getD i 0))
        = (0 :: (List.range t.length).map Nat.succ).map (fun i => g ((a :: t).getD i 0)) := by
          rw [List.length_cons, List.range_succ_eq_map]
      _ = g a :: (List.range t.length).map ((fun i => g ((a :: t).getD i 0)) ∘ Nat.succ) := by
          rw [List.map_cons, List.map_map]; rfl
      _ = g a :: (List.range t.length).map (fun i => g (t.getD i 0)) := by rw [hcomp]
      _ = g a :: t.map g := by rw [ih]
      _ = (a :: t).map g := rfl

theorem rankdata_replicate (k : ℕ) (x : ℚ) :
    rankdata (List.replicate k x) = List.replicate k (((k : ℚ) + 1) / 2) := by
  have h1 : (List.replicate k x).countP (fun y => decide (y < x)) = 0 := by
    simp [List.countP_replicate]
  have h2 : (List.replicate k x).countP (fun y => decide (y = x)) = k := by
    simp [List.countP_replicate]
  simp [rankdata, List.map_replicate, h1, h2]

theorem tiesOf_replicate (k : ℕ) (r : ℚ) :
    tiesOf (List.replicate k r) = (k : ℚ) * ((k : ℚ) ^ 2 - 1) := by
  have hc : (List.replicate k r).count r = k := by simp
  simp [tiesOf, List.map_replicate, hc, List.sum_replicate, nsmul_eq_mul]

theorem npTranspose_replicate (k : ℕ) (hk : k ≠ 0) (v : List ℚ) :
    npTranspose (List.replicate k v) = v.map (fun x => List.replicate k x) := by
  obtain ⟨m, rfl⟩ := Nat.exists_eq_succ_of_ne_zero hk
  simp only [npTranspose, List.replicate_succ, List.headD_cons, List.map_cons,
    List.map_replicate]
  exact map_range_getD v (fun x => x :: List.replicate m x)

/-- On k identical series (k at least 3, nonempty), every trial row is fully
tied and the exact tie-correction factor c is exactly 0: the degenerate
branch is taken, the statistic has no finite value (none) and the p-value is
the degenerate float outcome degen k n. -/
theorem friedmanchisquare_replicate (sf : ℕ → ℚ → ℚ) (degen : ℕ → ℕ → Option ℚ)
    (k : ℕ) (v : List ℚ) (hk : 3 ≤ k) (hv : v ≠ []) :
    friedmanchisquare sf degen (List.replicate k v) = .ok (none, degen k v.length) := by
  have hk0 : k ≠ 0 := by omega
  have hhead : (List.replicate k v).headD [] = v := by
    obtain ⟨m, rfl⟩ := Nat.exists_eq_succ_of_ne_zero hk0
    simp [List.replicate_succ]
  have hn : v.length ≠ 0 := fun h => hv (List.eq_nil_of_length_eq_zero h)
  have hdata : (npTranspose (List.replicate k v)).map rankdata
      = List.replicate v.length (List.replicate k (((k : ℚ) + 1) / 2)) := by
    rw [npTranspose_replicate k hk0 v, List.map_map]
    have hfun : (rankdata ∘ fun x : ℚ => List.replicate k x)
        = fun _ : ℚ => List.replicate k (((k : ℚ) + 1) / 2) := by
      funext x
      simp [Function.comp, rankdata_replicate]
    rw [hfun, List.map_const']
  have hties : ((List.replicate v.length (List.replicate k (((k : ℚ) + 1) / 2))).map tiesOf).sum
      = (v.length : ℚ) * ((k : ℚ) * ((k : ℚ) ^ 2 - 1)) := by
    simp [List.map_replicate, tiesOf_replicate, List.sum_replicate, nsmul_eq_mul]
  have hknz : (k : ℚ) ≠ 0 := Nat.cast_ne_zero.mpr hk0
  have hksq : (k : ℚ) * (k : ℚ) - 1 ≠ 0 := by
    have h3 : (3 : ℚ) ≤ (k : ℚ) := by exact_mod_cast hk
    nlinarith
  have hnnz : ((v.length : ℕ) : ℚ) ≠ 0 := Nat.cast_ne_zero.mpr hn
  have hc : 1 - ((v.length : ℚ) * ((k : ℚ) * ((k : ℚ) ^ 2 - 1))) /
      ((k : ℚ) * ((k : ℚ) * (k : ℚ) - 1) * (v.length : ℚ)) = 0 := by
    have hnum : (v.length : ℚ) * ((k : ℚ) * ((k : ℚ) ^ 2 - 1))
        = (k : ℚ) * ((k : ℚ) * (k : ℚ) - 1) * (v.length : ℚ) := by ring
    rw [hnum, div_self (mul_ne_zero (mul_ne_zero hknz hksq) hnnz), sub_self]
  have hanyp : ¬ (((List.replicate k v).drop 1).any
      (fun s => s.length != ((List.replicate k v).headD []).length) = true) := by
    rw [hhead]
    simp only [List.any_eq_true, not_exists, not_and]
    intro x hx
    rw [List.eq_of_mem_replicate (List.mem_of_mem_drop hx)]
    simp
  simp only [friedmanchisquare]
  rw [if_neg (by simp only [List.length_replicate]; omega : ¬ (List.replicate k v).length < 3)]
  rw [if_neg hanyp]
  rw [if_neg (by rw [hhead]; exact hn : ¬ ((List.replicate k v).headD []).length = 0)]
  rw [hdata, hties, hhead, List.length_replicate]
  rw [if_pos hc]

/-- Claim C1 (amended): on a mapping whose series are all identical, the
Friedman test does not return a p-value of 1.0 as a matter of course.  With
fewer than 3 groups the library raises an error, so no p-value exists at
all; with at least 3 groups every trial row is fully tied, the exact
tie-corrected statistic is the indeterminate 0/0 (no finite value, so the
returned statistic is none), and the printed p-value is the degenerate-case
float outcome degen applied to the group count and series length — NaN, 0.0
or 1.0 depending only on the rounding residue at that size — with the
significance flag obtained by the usual pvalue < 0.05 comparison applied to
that outcome. -/
theorem identical_series_friedman (sf : ℕ → ℚ → ℚ) (degen : ℕ → ℕ → Option ℚ)
    (nemenyi : List (List ℚ) → List (List ℚ)) (labels : List String) (v : List ℚ)
    (hk : 3 ≤ labels.length) (hv : v ≠ []) :
    friedmanchisquare sf degen ((labels.map (fun l => (l, v))).map Prod.snd)
      = .ok (none, degen labels.length v.length) ∧
    ∃ out, calculate_friedman sf degen nemenyi (labels.map (fun l => (l, v))) = .ok out ∧
      Event.friedmanP (degen labels.length v.length)
        (if pvalueLt (degen labels.length v.length) (1/20) then "Da" else "Ne") ∈ out := by
  have hsnd : (labels.map (fun l => (l, v))).map Prod.snd
      = List.replicate labels.length v := by
    rw [List.map_map]
    have hfun : (Prod.snd ∘ fun l : String => (l, v)) = fun _ : String => v := rfl
    rw [hfun, List.map_const']
  have hfc := friedmanchisquare_replicate sf degen labels.length v hk hv
  refine ⟨by rw [hsnd]; exact hfc, ?_⟩
  simp only [calculate_friedman, hsnd, hfc]
  refine ⟨_, rfl, ?_⟩
  simp [List.mem_append]

/-- Witness for the amended C1 at three identical groups [1, 2, 3]. -/
theorem identical_series_friedman_witness :
    3 ≤ (["A", "B", "C"] : List String).length ∧ ([(1 : ℚ), 2, 3] ≠ []) ∧
    friedmanchisquare sfStub degenStub
        (((["A", "B", "C"] : List String).map (fun l => (l, [(1 : ℚ), 2, 3]))).map Prod.snd)
      = .ok (none, degenStub 3 3) ∧
    ∃ out, calculate_friedman sfStub degenStub nemStub
        ((["A", "B", "C"] : List String).map (fun l => (l, [(1 : ℚ), 2, 3]))) = .ok out ∧
      Event.friedmanP (degenStub 3 3)
        (if pvalueLt (degenStub 3 3) (1/20) then "Da" else "Ne") ∈ out :=
  ⟨by simp, by simp,
   (identical_series_friedman sfStub degenStub nemStub ["A", "B", "C"] [1, 2, 3]
     (by simp) (by simp)).1,
   (identical_series_friedman sfStub degenStub nemStub ["A", "B", "C"] [1, 2, 3]
     (by simp) (by simp)).2⟩

/-- Counterexample to claim C1 as stated: with two identical groups [1, 2, 3]
(the claim's own example) the Friedman call raises the fewer-than-3-groups
error, so no p-value of 1.0 is returned.  With three identical groups of
length 3 the float numerator is exactly 0.0, so the real program's statistic
is 0.0 / 0.0 = NaN and the p-value is NaN — degenStub instantiates the
degenerate outcome accordingly — hence the p-value is again not 1.0,
although the flag is indeed Ne. -/
theorem identical_series_counterexample :
    calculate_friedman sfStub degenStub nemStub
        [("FP_JS", [(1 : ℚ), 2, 3]), ("OOP_JS", [1, 2, 3])]
      = Except.error "At least 3 sets of samples must be given for Friedman test." ∧
    calculate_friedman sfStub degenStub nemStub
        [("A", [(1 : ℚ), 2, 3]), ("B", [1, 2, 3]), ("C", [1, 2, 3])]
      = Except.ok
        [Event.text "Friedman p vrijednost / Postoji razlika u barem jednoj grupi",
         Event.text "--------------------- / ------------------------------------",
         Event.friedmanP none "Ne",
         Event.text "",
         Event.text "Friedman post hoc",
         Event.groupIndex 0 "A", Event.groupIndex 1 "B", Event.groupIndex 2 "C",
         Event.posthocMatrix [[1, 1, 1], [2, 2, 2], [3, 3, 3]]] := by
  constructor
  · simp only [calculate_friedman]
    norm_num [friedmanchisquare]
  · have h : ([("A", [(1 : ℚ), 2, 3]), ("B", [1, 2, 3]), ("C", [1, 2, 3])]).map Prod.snd
        = List.replicate 3 [(1 : ℚ), 2, 3] := by
      simp [List.replicate]
    have hfc := friedmanchisquare_replicate sfStub degenStub 3 [(1 : ℚ), 2, 3]
      (by omega) (by simp)
    have htr : npTranspose (List.replicate 3 [(1 : ℚ), 2, 3])
        = [[1, 1, 1], [2, 2, 2], [3, 3, 3]] := by
      rw [npTranspose_replicate 3 (by omega) _]
      simp [List.replicate]
    simp only [calculate_friedman, h, hfc]
    norm_num [pvalueLt, degenStub, nemStub, htr, List.enum, List.enumFrom]

/-- Insert a string into an already ascending list, keeping it ascending. -/
def insertSorted (s : String) : List String → List String
  | [] => [s]
  | t :: ts => if s ≤ t then s :: t :: ts else t :: insertSorted s ts

/-- Insertion sort on strings, ascending. -/
def sortKeys : List String → List String
  | [] => []
  | s :: ss => insertSorted s (sortKeys ss)

/-- pandas df.groupby('script') iterates groups by key in ascending order:
the distinct script identifiers of the table, sorted. -/
def groupbyKeys (df : List Row) : List String :=
  sortKeys (df.map Row.script).dedup

/-- The matplotlib state that visualizer.py line 11-22 builds for one figure:
the box-plot series, the x tick labels and the decorations. -/
structure BoxPlot where
  data : List (List ℚ)
  xticklabels : List String
  xlabel : String
  ylabel : String
  title : String
deriving DecidableEq, Repr

/-- visualizer.py lines 6-22.  One series per non-excluded group (rows of the
group, attribute column), and one x tick label per non-excluded group: the
group name with name[:-3], its last three characters, removed. -/
def create_box_plots (df : List Row) (attr : Row → ℚ) (title ylabel : String)
    (excluded : List String) : BoxPlot :=
  { data := ((groupbyKeys df).filter (fun name => !(excluded.contains name))).map
      (fun name => (df.filter (fun r => r.script == name)).map attr),
    xticklabels := ((groupbyKeys df).filter (fun name => !(excluded.contains name))).map
      (fun name => name.dropRight 3),
    xlabel := "Naziv skripte",
    ylabel := ylabel,
    title := title }

/-- Claim C5: excluded groups contribute no box-plot series and no x tick
label, and the remaining groups keep the relative order they have when
nothing is excluded. -/
theorem box_plots_exclusion (df : List Row) (attr : Row → ℚ) (title ylabel : String)
    (excluded : List String) :
    (∀ g ∈ excluded, g ∉ (groupbyKeys df).filter (fun name => !(excluded.contains name))) ∧
    ((groupbyKeys df).filter (fun name => !(excluded.contains name))).Sublist
      (groupbyKeys df) ∧
    (create_box_plots df attr title ylabel excluded).data
      = ((groupbyKeys df).filter (fun name => !(excluded.contains name))).map
          (fun name => (df.filter (fun r => r.script == name)).map attr) ∧
    (create_box_plots df attr title ylabel excluded).xticklabels
      = ((groupbyKeys df).filter (fun name => !(excluded.contains name))).map
          (fun name => name.dropRight 3) ∧
    (create_box_plots df attr title ylabel []).data
      = (groupbyKeys df).map
          (fun name => (df.filter (fun r => r.script == name)).map attr) := by
  refine ⟨?_, List.filter_sublist _, rfl, rfl, ?_⟩
  · intro g hg hmem
    rcases List.mem_filter.1 hmem with ⟨-, hkeep⟩
    rw [Bool.not_eq_true'] at hkeep
    have hc : excluded.contains g = true := List.elem_iff.mpr hg
    rw [hc] at hkeep
    exact Bool.noConfusion hkeep
  · simp [create_box_plots]

/-- Witness for C5 at a concrete table and exclusion set. -/
theorem box_plots_exclusion_witness :
    ("B.js" ∈ ["B.js"]) ∧
    (∀ g ∈ ["B.js"], g ∉ (groupbyKeys [Row.mk "A.js" 1 2, Row.mk "B.js" 3 4]).filter
      (fun name => !((["B.js"] : List String).contains name))) :=
  ⟨by simp,
   (box_plots_exclusion [Row.mk "A.js" 1 2, Row.mk "B.js" 3 4] Row.time_taken
     "t" "y" ["B.js"]).1⟩

/-- Claim C7: every x tick label is the group's script identifier with its
last three characters removed (String.dropRight 3, the embedding of
name[:-3]), independent of what suffix the identifier actually has. -/
theorem box_plots_label_strips_three (df : List Row) (attr : Row → ℚ)
    (title ylabel : String) (excluded : List String) :
    (create_box_plots df attr title ylabel excluded).xticklabels
      = ((groupbyKeys df).filter (fun name => !(excluded.contains name))).map
          (fun name => name.dropRight 3) := rfl

/-- One run of the script body: concatenates the print blocks in order and
stops at the first uncaught library error, keeping the output printed so
far. -/
def runSeq : List (Except String (List Event)) → List Event × Option String
  | [] => ([], none)
  | .error e :: _ => ([], some e)
  | .ok ev :: rest =>
    let r := runSeq rest
    (ev ++ r.1, r.2)

/-- stats.py lines 54-95: the fixed sequence of headers, Shapiro reports and
Friedman runs over the four predefined collections. -/
def runStats (shapiro : List ℚ → ℚ × ℚ) (sf : ℕ → ℚ → ℚ)
    (degen : ℕ → ℕ → Option ℚ) (nemenyi : List (List ℚ) → List (List ℚ))
    (df : List Row) : List Event × Option String :=
  runSeq
    [.ok [Event.text "-- INICIJALNO --", Event.text ""],
     .ok [Event.text "Vremenska slozenost", Event.text "---"],
     .ok (calculate_shapiro shapiro (script_times df)),
     .ok [Event.text ""],
     calculate_friedman sf degen nemenyi (script_times df),
     .ok [Event.text "", Event.text "--- --- --- --- --- --- ---", Event.text ""],
     .ok [Event.text "Prostorna slozenost", Event.text "---"],
     .ok (calculate_shapiro shapiro (script_memory_usages df)),
     .ok [Event.text ""],
     calculate_friedman sf degen nemenyi (script_memory_usages df),
     .ok [Event.text "", Event.text "-- OPTIMIZIRANO --", Event.text ""],
     .ok [Event.text "Vremenska slozenost", Event.text "---"],
     .ok (calculate_shapiro shapiro (script_optimized_times df)),
     .ok [Event.text ""],
     calculate_friedman sf degen nemenyi (script_optimized_times df),
     .ok [Event.text "", Event.text "--- --- --- --- --- --- ---", Event.text ""],
     .ok [Event.text "Prostorna slozenost", Event.text "---"],
     .ok (calculate_shapiro shapiro (script_optimized_memory_usages df)),
     .ok [Event.text ""],
     calculate_friedman sf degen nemenyi (script_optimized_memory_usages df)]

/-- stats.py lines 33-38, with the file system abstracted as a map from path
to parsed table (none = missing file): usage line when no argument is given,
otherwise the table named by argv[1] is loaded and processed. -/
def runProgram (shapiro : List ℚ → ℚ × ℚ) (sf : ℕ → ℚ → ℚ)
    (degen : ℕ → ℕ → Option ℚ) (nemenyi : List (List ℚ) → List (List ℚ))
    (argv : List String) (fs : String → Option (List Row)) :
    List Event × Option String :=
  match argv[1]? with
  | none => ([Event.text "Usage: python3 stats.py csv_file_path"], none)
  | some path =>
    match fs path with
    | none => ([], some "FileNotFoundError")
    | some df => runStats shapiro sf degen nemenyi df

/-- Claim C8: the console output is a pure function of the input file's
contents: with the statistics library fixed, two runs whose file systems
agree on the file named by the command line produce identical output — in
particular, two runs on the same input file are byte-identical. -/
theorem program_output_deterministic (shapiro : List ℚ → ℚ × ℚ) (sf : ℕ → ℚ → ℚ)
    (degen : ℕ → ℕ → Option ℚ) (nemenyi : List (List ℚ) → List (List ℚ))
    (argv : List String) (fs1 fs2 : String → Option (List Row))
    (h : ∀ path, argv[1]? = some path → fs1 path = fs2 path) :
    runProgram shapiro sf degen nemenyi argv fs1
      = runProgram shapiro sf degen nemenyi argv fs2 := by
  cases hp : argv[1]? with
  | none => simp only [runProgram, hp]
  | some path =>
    simp only [runProgram, hp]
    rw [h path hp]

/-- Witness for C8: two file systems that differ away from the input file
yield the same run. -/
theorem program_output_deterministic_witness :
    (∀ path, (["stats.py", "data.csv"] : List String)[1]? = some path →
      (fun p => if p = "data.csv" then some ([] : List Row) else none) path
        = (fun _ : String => some ([] : List Row)) path) ∧
    runProgram shapiroStub sfStub degenStub nemStub ["stats.py", "data.csv"]
        (fun p => if p = "data.csv" then some ([] : List Row) else none)
      = runProgram shapiroStub sfStub degenStub nemStub ["stats.py", "data.csv"]
        (fun _ : String => some ([] : List Row)) :=
  ⟨by intro path hp; simp at hp; subst hp; simp,
   program_output_deterministic shapiroStub sfStub degenStub nemStub
     ["stats.py", "data.csv"] _ _
     (by intro path hp; simp at hp; subst hp; simp)⟩
